import Mathlib

/-!
Verification of the Credit Trail turn-based finance simulation.

The Python modules `characters.py`, `events.py`, `game.py` and `market.py`
are shallowly embedded below.  Python numbers are modelled as rationals
(`ℚ`); dates as a record of natural numbers.  Randomness is made explicit:
every function that consumes a draw from `random.random()` / `random.choice`
takes the drawn value (or a choice index) as an extra argument.  Prose-only
fields (event descriptions, console text) do not influence behaviour and are
elided; the end-of-game message strings are represented by the `EndReason`
enumeration.
-/

namespace CreditTrail

/-- Mutable character state from `characters.py` (`Character.__init__`).
`pending_debt` and `volunteer_bonus` are set dynamically by `game.py`
(`process_expenses` / `action_volunteer`) and read with a `getattr` default
of 0; they are modelled as fields initialised to 0. -/
structure Character where
  name : String
  savings : ℚ
  debt : ℚ
  income : ℚ
  risk_rating : ℚ
  investments : ℚ
  credit_score : ℚ
  monthly_expenses : ℚ
  stress : ℚ
  health : ℚ
  reputation : ℚ
  pending_debt : ℚ
  volunteer_bonus : ℚ
deriving DecidableEq

/-- `Character.__init__(name, savings, debt, income, risk_rating)`. -/
def Character.init (name : String) (savings debt income risk_rating : ℚ) : Character :=
  { name := name
    savings := savings
    debt := debt
    income := income
    risk_rating := risk_rating
    investments := 0
    credit_score := 700
    monthly_expenses := income / 24
    stress := 50
    health := 80
    reputation := 70
    pending_debt := 0
    volunteer_bonus := 0 }

/-- `Character.get_monthly_income`. -/
def Character.get_monthly_income (c : Character) : ℚ :=
  c.income / 12

/-- `Character.get_net_worth`. -/
def Character.get_net_worth (c : Character) : ℚ :=
  c.savings + c.investments - c.debt

/-- `Character.work`: returns the updated character and the earned amount. -/
def Character.work (c : Character) : Character × ℚ :=
  let earned := c.get_monthly_income
  let c := { c with savings := c.savings + earned }
  let s := c.stress + 10
  if s > 100 then
    ({ c with stress := 100, health := c.health - 25 }, earned)
  else
    ({ c with stress := s }, earned)

/-- `Character.relax`: returns the updated character and the stress reduction. -/
def Character.relax (c : Character) : Character × ℚ :=
  let stress_reduction := min 25 c.stress
  let c := { c with stress := c.stress - stress_reduction }
  let h := c.health + 5
  ({ c with health := if h > 100 then 100 else h }, stress_reduction)

/-- `Character.pay_debt`: returns the updated character and the actual payment. -/
def Character.pay_debt (c : Character) (amount : ℚ) : Character × ℚ :=
  let payment := min amount c.debt
  let payment := if payment > c.savings then c.savings else payment
  let c := { c with savings := c.savings - payment, debt := c.debt - payment }
  let cs := c.credit_score + payment / 1000
  ({ c with credit_score := if cs > 850 then 850 else cs }, payment)

/-- `Character.invest`: returns the updated character and the amount moved. -/
def Character.invest (c : Character) (amount : ℚ) : Character × ℚ :=
  let amount := if amount > c.savings then c.savings else amount
  ({ c with savings := c.savings - amount, investments := c.investments + amount }, amount)

/-- The `Hudson` preset (`characters.py`). -/
def Hudson : Character :=
  { Character.init "Hudson" 6500 0 62000 (11/2) with credit_score := 720, stress := 45 }

/-- The `Jane` preset (`characters.py`): after `super().__init__` her savings
are overwritten to 2000. -/
def Jane : Character :=
  { Character.init "Jane" 0 8000 80000 2 with credit_score := 680, stress := 60, savings := 2000 }

/-- Non-negativity of the three monetary quantities. -/
def moneyNonneg (c : Character) : Prop :=
  0 ≤ c.savings ∧ 0 ≤ c.debt ∧ 0 ≤ c.investments

instance (c : Character) : Decidable (moneyNonneg c) := by
  unfold moneyNonneg; infer_instance

/-- The documented clamp ranges of the score-like fields. -/
def scoresInRange (c : Character) : Prop :=
  0 ≤ c.stress ∧ c.stress ≤ 100 ∧
  0 ≤ c.health ∧ c.health ≤ 100 ∧
  0 ≤ c.reputation ∧ c.reputation ≤ 100 ∧
  300 ≤ c.credit_score ∧ c.credit_score ≤ 850

instance (c : Character) : Decidable (scoresInRange c) := by
  unfold scoresInRange; infer_instance

/-- The full set of bounds a well-formed entity state satisfies. -/
def inBounds (c : Character) : Prop :=
  moneyNonneg c ∧ scoresInRange c ∧ 0 ≤ c.income

instance (c : Character) : Decidable (inBounds c) := by
  unfold inBounds; infer_instance

/-!
Event model from `events.py`.  A configured delta is a Python number that is
either an `int` or a `float`; `apply` treats a `float` strictly between −1
and 1 as a percentage of the current field value and anything else as an
absolute addend.  The tag `isFloat` records the Python runtime type.
-/

/-- A configured event delta: Python runtime type tag plus numeric value. -/
structure Delta where
  isFloat : Bool
  val : ℚ
deriving DecidableEq

/-- Resolution of the percentage-vs-absolute rule of `events.py`
(`isinstance(change, float) and -1 < change < 1`): returns the numeric
change applied to (and recorded for) a field with current value `field`. -/
def resolveDelta (d : Delta) (field : ℚ) : ℚ :=
  if d.isFloat = true ∧ -1 < d.val ∧ d.val < 1 then field * d.val else d.val

/-- The clamp pattern `if x > 100: 100 elif x < 0: 0` used for stress,
health and reputation. -/
def clamp0to100 (x : ℚ) : ℚ :=
  if x > 100 then 100 else if x < 0 then 0 else x

/-- The clamp pattern `if x > 850: 850 elif x < 300: 300` used for the
credit score. -/
def clamp300to850 (x : ℚ) : ℚ :=
  if x > 850 then 850 else if x < 300 then 300 else x

/-- `FinancialEvent.__init__`: keyword arguments default to the `int` 0.
Descriptive strings other than the title are elided (behaviour-free). -/
structure FinancialEvent where
  title : String
  savings_change : Delta := ⟨false, 0⟩
  debt_change : Delta := ⟨false, 0⟩
  income_change : Delta := ⟨false, 0⟩
  investment_change : Delta := ⟨false, 0⟩
  credit_score_change : ℚ := 0
  stress_change : ℚ := 0
  health_change : ℚ := 0
  reputation_change : ℚ := 0
deriving DecidableEq

/-- `LifeEvent.__init__`: same fields as `FinancialEvent`, applied in a
different order by `apply`. -/
structure LifeEvent where
  title : String
  stress_change : ℚ := 0
  health_change : ℚ := 0
  reputation_change : ℚ := 0
  savings_change : Delta := ⟨false, 0⟩
  debt_change : Delta := ⟨false, 0⟩
  income_change : Delta := ⟨false, 0⟩
  investment_change : Delta := ⟨false, 0⟩
  credit_score_change : ℚ := 0
deriving DecidableEq

/-- `FinancialEvent.apply`: mutates the character field by field in source
order (savings, debt, income, investments, credit score, then the three
conditionally-applied life scores) and returns the updated character with
the `effects` dict, modelled as an association list in insertion order. -/
def FinancialEvent.apply (e : FinancialEvent) (c0 : Character) : Character × List (String × ℚ) :=
  let sCh := resolveDelta e.savings_change c0.savings
  let c1 := { c0 with savings := c0.savings + sCh }
  let dCh := resolveDelta e.debt_change c1.debt
  let c2 := { c1 with debt := c1.debt + dCh }
  let iCh := resolveDelta e.income_change c2.income
  let c3 := { c2 with income := c2.income + iCh }
  let vCh := resolveDelta e.investment_change c3.investments
  let c4 := { c3 with investments := c3.investments + vCh }
  let c5 := { c4 with credit_score := clamp300to850 (c4.credit_score + e.credit_score_change) }
  let c6 := if e.stress_change ≠ 0 then { c5 with stress := clamp0to100 (c5.stress + e.stress_change) } else c5
  let c7 := if e.health_change ≠ 0 then { c6 with health := clamp0to100 (c6.health + e.health_change) } else c6
  let c8 := if e.reputation_change ≠ 0 then { c7 with reputation := clamp0to100 (c7.reputation + e.reputation_change) } else c7
  let effects := [("savings", sCh), ("debt", dCh), ("income", iCh), ("investments", vCh),
      ("credit_score", e.credit_score_change)]
    ++ (if e.stress_change ≠ 0 then [("stress", e.stress_change)] else [])
    ++ (if e.health_change ≠ 0 then [("health", e.health_change)] else [])
    ++ (if e.reputation_change ≠ 0 then [("reputation", e.reputation_change)] else [])
  (c8, effects)

/-- `LifeEvent.apply`: stress, health and reputation are applied (and
reported) unconditionally, then the four monetary fields, then the credit
score only when its delta is non-zero. -/
def LifeEvent.apply (e : LifeEvent) (c0 : Character) : Character × List (String × ℚ) :=
  let c1 := { c0 with stress := clamp0to100 (c0.stress + e.stress_change) }
  let c2 := { c1 with health := clamp0to100 (c1.health + e.health_change) }
  let c3 := { c2 with reputation := clamp0to100 (c2.reputation + e.reputation_change) }
  let sCh := resolveDelta e.savings_change c3.savings
  let c4 := { c3 with savings := c3.savings + sCh }
  let dCh := resolveDelta e.debt_change c4.debt
  let c5 := { c4 with debt := c4.debt + dCh }
  let iCh := resolveDelta e.income_change c5.income
  let c6 := { c5 with income := c5.income + iCh }
  let vCh := resolveDelta e.investment_change c6.investments
  let c7 := { c6 with investments := c6.investments + vCh }
  let c8 := if e.credit_score_change ≠ 0 then { c7 with credit_score := clamp300to850 (c7.credit_score + e.credit_score_change) } else c7
  let effects := [("stress", e.stress_change), ("health", e.health_change),
      ("reputation", e.reputation_change), ("savings", sCh), ("debt", dCh),
      ("income", iCh), ("investments", vCh)]
    ++ (if e.credit_score_change ≠ 0 then [("credit_score", e.credit_score_change)] else [])
  (c8, effects)

/-!
The event catalog of `get_random_event` and `get_historical_event`.
Integer-literal deltas in the source are `int` (`isFloat = false`),
decimal-literal deltas are `float` (`isFloat = true`).
-/

/-- `Car Repair` (savings −500, `int`). -/
def carRepair : FinancialEvent :=
  { title := "Car Repair", savings_change := ⟨false, -500⟩ }

/-- `Bonus at Work` (savings +1000, `int`). -/
def bonusAtWork : FinancialEvent :=
  { title := "Bonus at Work", savings_change := ⟨false, 1000⟩ }

/-- `Medical Expense` (savings −800, `int`). -/
def medicalExpense : FinancialEvent :=
  { title := "Medical Expense", savings_change := ⟨false, -800⟩ }

/-- `Tax Refund` (savings +600, `int`). -/
def taxRefund : FinancialEvent :=
  { title := "Tax Refund", savings_change := ⟨false, 600⟩ }

/-- `Credit Card Fee` (debt +200, `int`). -/
def creditCardFee : FinancialEvent :=
  { title := "Credit Card Fee", debt_change := ⟨false, 200⟩ }

/-- `Promotion` (income +0.10, `float`, hence a 10% increase). -/
def promotionEvent : FinancialEvent :=
  { title := "Promotion", income_change := ⟨true, 1/10⟩ }

/-- `Vacation` (stress −20, savings −300 `int`). -/
def vacation : LifeEvent :=
  { title := "Vacation", stress_change := -20, savings_change := ⟨false, -300⟩ }

/-- `Flu Season` (health −15, stress +10). -/
def fluSeason : LifeEvent :=
  { title := "Flu Season", health_change := -15, stress_change := 10 }

/-- `Networking Event` (reputation +10). -/
def networkingEvent : LifeEvent :=
  { title := "Networking Event", reputation_change := 10 }

/-- `Argument at Work` (stress +15, reputation −5). -/
def argumentAtWork : LifeEvent :=
  { title := "Argument at Work", stress_change := 15, reputation_change := -5 }

/-!
Calendar model.  `datetime.date` is embedded as a year/month/day record.
-/

/-- A calendar date (`datetime.date`). -/
structure Date where
  year : ℕ
  month : ℕ
  day : ℕ
deriving DecidableEq

/-- The literal month-length list of `add_one_month` in `game.py`, with the
source's leap-year expression `year % 4 == 0 and (year % 100 != 0 or
year % 400 == 0)` deciding February. -/
def month_lengths (year : ℕ) : List ℕ :=
  [31, if year % 4 = 0 ∧ (year % 100 ≠ 0 ∨ year % 400 = 0) then 29 else 28,
   31, 30, 31, 30, 31, 31, 30, 31, 30, 31]

/-- Number of days of month `m` (1-based) of `year`, i.e. the list indexing
`[...][month - 1]` in `add_one_month`. -/
def daysInMonth (year m : ℕ) : ℕ :=
  (month_lengths year).getD (m - 1) 31

/-- A date is valid when its month is in 1..12 and its day in
1..daysInMonth. -/
def isValidDate (d : Date) : Prop :=
  1 ≤ d.month ∧ d.month ≤ 12 ∧ 1 ≤ d.day ∧ d.day ≤ daysInMonth d.year d.month

instance (d : Date) : Decidable (isValidDate d) := by
  unfold isValidDate; infer_instance

/-- `add_one_month` from `game.py`: roll the month (and year at December),
then clamp the day to the target month's length. -/
def add_one_month (date : Date) : Date :=
  let ym := if date.month = 12 then (date.year + 1, 1) else (date.year, date.month + 1)
  let day := min date.day (daysInMonth ym.1 ym.2)
  ⟨ym.1, ym.2, day⟩

/-!
Historical calendar and the random event roll from `events.py`.
-/

/-- The `historical_events` dict of `get_historical_event`, in insertion
order, as (date, event) pairs. -/
def historical_events : List (Date × FinancialEvent) :=
  [(⟨2007, 2, 27⟩, { title := "Stock Market Dip", investment_change := ⟨true, -1/20⟩ }),
   (⟨2007, 8, 9⟩, { title := "BNP Paribas Freezes Funds", investment_change := ⟨true, -7/100⟩ }),
   (⟨2008, 3, 14⟩, { title := "Bear Stearns Collapse", investment_change := ⟨true, -3/20⟩, stress_change := 20 }),
   (⟨2008, 9, 15⟩, { title := "Lehman Brothers Bankruptcy", investment_change := ⟨true, -1/4⟩, stress_change := 30 }),
   (⟨2008, 10, 3⟩, { title := "Emergency Economic Stabilization Act", investment_change := ⟨true, 1/20⟩ }),
   (⟨2009, 3, 9⟩, { title := "Market Bottom", investment_change := ⟨true, 2/25⟩ })]

/-- `get_historical_event`: first entry whose year and month match the
current date. -/
def get_historical_event (current_date : Date) : Option FinancialEvent :=
  (historical_events.find? fun p =>
    p.1.year == current_date.year && p.1.month == current_date.month).map Prod.snd

/-- The `financial_events` pool built inside `get_random_event`: the five
base events, extended with three copies of `Promotion` when reputation
exceeds 75, or one copy when it exceeds 50. -/
def financial_events (character : Character) : List FinancialEvent :=
  [carRepair, bonusAtWork, medicalExpense, taxRefund, creditCardFee]
    ++ (if character.reputation > 75 then [promotionEvent, promotionEvent, promotionEvent]
        else if character.reputation > 50 then [promotionEvent]
        else [])

/-- The `life_events` pool of `get_random_event`. -/
def life_events : List LifeEvent :=
  [vacation, fluSeason, networkingEvent, argumentAtWork]

/-- An event returned by the catalog: financial or life variant. -/
inductive GEvent where
  | fin (e : FinancialEvent)
  | life (e : LifeEvent)
deriving DecidableEq

/-- `get_random_event(current_date, character)`.  Randomness is explicit:
`r1` is the first `random.random()` draw (the 0.3 trigger roll), `r2` the
second (the 60/40 financial-vs-life split), and `i`, `j` determine the
uniform `random.choice` from the respective pool. -/
def get_random_event (current_date : Date) (character : Character)
    (r1 r2 : ℚ) (i j : ℕ) : Option GEvent :=
  if r1 > 3/10 then none
  else
    match get_historical_event current_date with
    | some e => some (GEvent.fin e)
    | none =>
      if r2 < 6/10 then
        some (GEvent.fin ((financial_events character).getD
          (i % (financial_events character).length) carRepair))
      else
        some (GEvent.life (life_events.getD (j % life_events.length) vacation))

/-!
Game/turn state machine from `game.py`.  Console rendering and the
interactive prompts are behaviour-free for the verified state and are
elided; the two `end_game` messages of the main loop are represented by
`EndReason`.
-/

/-- The two loss messages passed to `end_game` in `Game.start`. -/
inductive EndReason where
  | lostHealth
  | lostBankruptcy
deriving DecidableEq

/-- `Game.__init__` state: the owned character plus date, turn counters and
the game-over flag.  `end_reason` records which `end_game` message fired. -/
structure GameState where
  character : Character
  current_date : Date
  turn : ℕ
  max_turns : ℕ
  game_over : Bool
  monthly_expenses : ℚ
  end_reason : Option EndReason
deriving DecidableEq

/-- `Game.__init__(character)`. -/
def Game.init (character : Character) : GameState :=
  { character := character
    current_date := ⟨2005, 6, 1⟩
    turn := 1
    max_turns := 48
    game_over := false
    monthly_expenses := character.monthly_expenses
    end_reason := none }

/-- `Game.process_expenses`: deduct expenses from savings when covered,
otherwise zero savings and record the shortfall as `pending_debt`. -/
def process_expenses (g : GameState) : GameState :=
  if g.character.savings ≥ g.monthly_expenses then
    { g with character := { g.character with savings := g.character.savings - g.monthly_expenses } }
  else
    { g with character := { g.character with
        savings := 0
        pending_debt := g.monthly_expenses - g.character.savings } }

/-- The surge-probability computation of `Game.play_turn`: 20% base, up to
60% under high stress or low health, plus the volunteer bonus, capped at
0.6.  Reads `volunteer_bonus` (and does not reset it, as in the source). -/
def event_chance (c : Character) : ℚ :=
  let stress_factor := max 0 ((c.stress - 40) / 60)
  let health_factor := max 0 ((80 - c.health) / 80)
  let base_chance := 2/10 + 4/10 * max stress_factor health_factor + c.volunteer_bonus
  if base_chance > 6/10 then 6/10 else base_chance

/-- The pre-action phase of `Game.play_turn`: settle expenses, compute the
chance from the (post-expense) character, and roll `surgeRoll` against it
for the multiple-main-actions surge.  Returns the updated state and the
`allow_multiple_actions` flag. -/
def play_turn_surge (g : GameState) (surgeRoll : ℚ) : GameState × Bool :=
  let g1 := process_expenses g
  let chance := event_chance g1.character
  (g1, decide (surgeRoll < chance))

/-- `Game.action_volunteer`: cut expenses by 10% (floored at 0), cut the
risk rating by 0.5 (floored at 1), and set the volunteer bonus to 0.1. -/
def action_volunteer (g : GameState) : GameState :=
  let expense_reduction := g.monthly_expenses * (1/10)
  let me := g.monthly_expenses - expense_reduction
  let me := if me < 0 then 0 else me
  let rr := g.character.risk_rating - 1/2
  let rr := if rr < 1 then 1 else rr
  { g with monthly_expenses := me
           character := { g.character with risk_rating := rr, volunteer_bonus := 1/10 } }

/-- `calculate_investment_return(amount, risk_rating, current_date)` from
`market.py` with the sampled base monthly return injected as `baseReturn`
(the date only selects the range the draw is taken from; the unused Python
local `success_rate` is elided).  Returns the new amount and the percentage
return. -/
def calculate_investment_return (amount risk_rating baseReturn : ℚ) : ℚ × ℚ :=
  let risk_multiplier := 1/2 + risk_rating / 10
  let adjusted_return := baseReturn * risk_multiplier
  (amount * (1 + adjusted_return), adjusted_return * 100)

/-- `Game.advance_turn` with the market draw injected: flush pending debt,
update investments when positive, accrue 1.5% monthly interest on positive
debt, advance the calendar, increment the turn counter. -/
def advance_turn (g : GameState) (baseReturn : ℚ) : GameState :=
  let c := g.character
  let c := if c.pending_debt > 0 then
      { c with debt := c.debt + c.pending_debt, pending_debt := 0 }
    else c
  let c := if c.investments > 0 then
      { c with investments := (calculate_investment_return c.investments c.risk_rating baseReturn).1 }
    else c
  let c := if c.debt > 0 then { c with debt := c.debt + c.debt * (15/1000) } else c
  { g with character := c
           current_date := add_one_month g.current_date
           turn := g.turn + 1 }

/-- `Game.end_game`: set the game-over flag; the console message is
represented by the reason. -/
def end_game (g : GameState) (reason : EndReason) : GameState :=
  { g with game_over := true, end_reason := some reason }

/-- The per-iteration tail of the main loop in `Game.start`: after
`play_turn` returns, check health, then bankruptcy, and only when the game
is not over run `advance_turn`. -/
def check_and_advance (g : GameState) (baseReturn : ℚ) : GameState :=
  let g1 :=
    if g.character.health ≤ 0 then end_game g .lostHealth
    else if g.character.debt > 50000 ∧ g.character.credit_score < 500 then
      end_game g .lostBankruptcy
    else g
  if g1.game_over then g1 else advance_turn g1 baseReturn

/-!
Shared helper lemmas.
-/

/-- The 0–100 clamp always lands inside the range. -/
lemma clamp0to100_bounds (x : ℚ) : 0 ≤ clamp0to100 x ∧ clamp0to100 x ≤ 100 := by
  unfold clamp0to100
  split_ifs <;> constructor <;> linarith

/-- The 300–850 clamp always lands inside the range. -/
lemma clamp300to850_bounds (x : ℚ) : 300 ≤ clamp300to850 x ∧ clamp300to850 x ≤ 850 := by
  unfold clamp300to850
  split_ifs <;> constructor <;> linarith

/-!
Claims about the entity operations.
-/

/-- C3 (counterexample): starting in bounds with stress 95 and health 20,
`work` saturates stress and leaves health at −5 — the deduction is not
clamped at 0 as the claim states. -/
theorem work_health_clamp_counterexample :
    inBounds { Hudson with stress := 95, health := 20 } ∧
    (({ Hudson with stress := 95, health := 20 } : Character).work).1.stress = 100 ∧
    (({ Hudson with stress := 95, health := 20 } : Character).work).1.health = -5 ∧
    ¬ 0 ≤ (({ Hudson with stress := 95, health := 20 } : Character).work).1.health := by
  norm_num [inBounds, moneyNonneg, scoresInRange, Hudson, Character.init,
    Character.work, Character.get_monthly_income]

/-- C3 (amended): `work` credits `income/12` to savings and returns it, adds
10 to stress clamped at 100, and when stress saturates deducts 25 from
health WITHOUT clamping at 0; the Hudson scenario (savings 6500, debt 0,
income 62000, stress 45) yields savings 6500 + 62000/12 and stress 55. -/
theorem work_spec (c : Character) :
    (c.work).2 = c.income / 12 ∧
    (c.work).1.savings = c.savings + c.income / 12 ∧
    (c.work).1.stress = min (c.stress + 10) 100 ∧
    (c.work).1.health = (if c.stress + 10 > 100 then c.health - 25 else c.health) ∧
    (Hudson.work).1.savings = 6500 + 62000 / 12 ∧
    (Hudson.work).1.stress = 55 := by
  have hH : (Hudson.work).1.savings = 6500 + 62000 / 12 ∧ (Hudson.work).1.stress = 55 := by
    norm_num [Hudson, Character.init, Character.work, Character.get_monthly_income]
  refine ⟨?_, ?_, ?_, ?_, hH.1, hH.2⟩
  · simp only [Character.work, Character.get_monthly_income]
    split_ifs <;> rfl
  · simp only [Character.work, Character.get_monthly_income]
    split_ifs <;> rfl
  · simp only [Character.work, Character.get_monthly_income]
    split_ifs with h
    · exact (min_eq_right (by linarith)).symm
    · exact (min_eq_left (by linarith)).symm
  · simp only [Character.work, Character.get_monthly_income]
    split_ifs <;> rfl

/-- C4 (counterexample): with savings 2000 and debt 8000 (the Jane preset),
`pay_debt(3000)` caps the payment at 2000 and leaves debt 6000, not the
5000 the claim states. -/
theorem pay_debt_scenario_counterexample :
    (Jane.pay_debt 3000).2 = 2000 ∧
    (Jane.pay_debt 3000).1.savings = 0 ∧
    (Jane.pay_debt 3000).1.debt = 6000 ∧
    (Jane.pay_debt 3000).1.debt ≠ 5000 := by
  norm_num [Jane, Character.init, Character.pay_debt]

/-- C4 (amended): `pay_debt(amount)` pays exactly min(amount, debt, savings),
decrements savings and debt by the payment, raises the credit score by
payment/1000 clamped at 850, and returns the payment; from non-negative
savings and debt it never leaves either negative; the scenario with savings
2000, debt 8000 and amount 3000 caps the payment at 2000 and leaves savings
0 and debt 6000. -/
theorem pay_debt_spec (c : Character) (amount : ℚ) :
    (c.pay_debt amount).2 = min (min amount c.debt) c.savings ∧
    (c.pay_debt amount).1.savings = c.savings - (c.pay_debt amount).2 ∧
    (c.pay_debt amount).1.debt = c.debt - (c.pay_debt amount).2 ∧
    (c.pay_debt amount).1.credit_score =
      min (c.credit_score + (c.pay_debt amount).2 / 1000) 850 ∧
    (0 ≤ c.savings → 0 ≤ c.debt →
      0 ≤ (c.pay_debt amount).1.savings ∧ 0 ≤ (c.pay_debt amount).1.debt) ∧
    (Jane.pay_debt 3000).2 = 2000 ∧
    (Jane.pay_debt 3000).1.savings = 0 ∧
    (Jane.pay_debt 3000).1.debt = 6000 := by
  have hJ : (Jane.pay_debt 3000).2 = 2000 ∧ (Jane.pay_debt 3000).1.savings = 0 ∧
      (Jane.pay_debt 3000).1.debt = 6000 := by
    norm_num [Jane, Character.init, Character.pay_debt]
  have hmin : min amount c.debt ≤ c.debt := min_le_right _ _
  have hmin2 : min amount c.debt ≤ amount := min_le_left _ _
  by_cases h : min amount c.debt > c.savings
  · have hpay : (c.pay_debt amount).2 = c.savings := by
      simp [Character.pay_debt, h]
    have hmineq : min (min amount c.debt) c.savings = c.savings :=
      min_eq_right h.le
    refine ⟨by rw [hpay, hmineq], ?_, ?_, ?_, ?_, hJ.1, hJ.2.1, hJ.2.2⟩
    · simp [Character.pay_debt, h]
    · simp [Character.pay_debt, h]
    · rw [hpay]
      simp only [Character.pay_debt, if_pos h]
      split_ifs with h850
      · exact (min_eq_right (by linarith)).symm
      · exact (min_eq_left (by linarith)).symm
    · intro hs hd
      rw [hpay] at *
      constructor
      · simp [Character.pay_debt, h]
      · simp only [Character.pay_debt, if_pos h]
        linarith
  · have hpay : (c.pay_debt amount).2 = min amount c.debt := by
      simp [Character.pay_debt, h]
    have hmineq : min (min amount c.debt) c.savings = min amount c.debt :=
      min_eq_left (not_lt.mp h)
    refine ⟨by rw [hpay, hmineq], ?_, ?_, ?_, ?_, hJ.1, hJ.2.1, hJ.2.2⟩
    · simp [Character.pay_debt, h]
    · simp [Character.pay_debt, h]
    · rw [hpay]
      simp only [Character.pay_debt, if_neg h]
      split_ifs with h850
      · exact (min_eq_right (by linarith)).symm
      · exact (min_eq_left (by linarith)).symm
    · intro hs hd
      have h' : min amount c.debt ≤ c.savings := not_lt.mp h
      constructor
      · simp only [Character.pay_debt, if_neg h]
        linarith
      · simp only [Character.pay_debt, if_neg h]
        linarith

/-- C4 (witness): instantiation of the non-negativity clause at the Jane
scenario. -/
theorem pay_debt_spec_witness :
    0 ≤ (Jane.pay_debt 3000).1.savings ∧ 0 ≤ (Jane.pay_debt 3000).1.debt :=
  (pay_debt_spec Jane 3000).2.2.2.2.1
    (by norm_num [Jane, Character.init]) (by norm_num [Jane, Character.init])

/-- C10: `pay_debt` and `invest` leave the net worth (savings + investments
− debt) exactly unchanged, for every character and every amount. -/
theorem net_worth_preserved (c : Character) (amount : ℚ) :
    ((c.pay_debt amount).1).get_net_worth = c.get_net_worth ∧
    ((c.invest amount).1).get_net_worth = c.get_net_worth := by
  constructor
  · simp only [Character.pay_debt, Character.get_net_worth]
    split_ifs <;> ring
  · simp only [Character.invest, Character.get_net_worth]
    split_ifs <;> ring

/-!
Claims about the calendar.
-/

/-- Every month of the source's length table has at least 28 days. -/
lemma daysInMonth_ge_28 (y m : ℕ) (h1 : 1 ≤ m) (h2 : m ≤ 12) :
    28 ≤ daysInMonth y m := by
  interval_cases m <;> simp only [daysInMonth, month_lengths, List.getD] <;>
    split_ifs <;> simp

/-- C9: `add_one_month` maps 2008-01-31 to 2008-02-29 and 2007-01-31 to
2007-02-28; February has 29 days exactly in Gregorian leap years including
the century rules (2000 leap, 1900 not); and for every valid date the
result's day is the original day clamped to the target month's length and
the result is again valid. -/
theorem add_one_month_spec :
    add_one_month ⟨2008, 1, 31⟩ = ⟨2008, 2, 29⟩ ∧
    add_one_month ⟨2007, 1, 31⟩ = ⟨2007, 2, 28⟩ ∧
    daysInMonth 2000 2 = 29 ∧
    daysInMonth 1900 2 = 28 ∧
    ∀ d : Date, isValidDate d →
      (add_one_month d).day =
        min d.day (daysInMonth (add_one_month d).year (add_one_month d).month) ∧
      isValidDate (add_one_month d) := by
  refine ⟨by decide, by decide, by decide, by decide, ?_⟩
  intro d hd
  obtain ⟨hm1, hm2, hd1, _⟩ := hd
  by_cases h12 : d.month = 12
  · have h28 : 28 ≤ daysInMonth (d.year + 1) 1 :=
      daysInMonth_ge_28 _ 1 (by norm_num) (by norm_num)
    constructor
    · simp [add_one_month, h12]
    · simp [isValidDate, add_one_month, h12]
      omega
  · have h28 : 28 ≤ daysInMonth d.year (d.month + 1) :=
      daysInMonth_ge_28 _ _ (by omega) (by omega)
    constructor
    · simp [add_one_month, h12]
    · simp [isValidDate, add_one_month, h12]
      omega

/-- C9 (witness): the general clamping clause instantiated at 2008-01-31. -/
theorem add_one_month_spec_witness :
    (add_one_month ⟨2008, 1, 31⟩).day =
      min (⟨2008, 1, 31⟩ : Date).day
        (daysInMonth (add_one_month ⟨2008, 1, 31⟩).year (add_one_month ⟨2008, 1, 31⟩).month) ∧
    isValidDate (add_one_month ⟨2008, 1, 31⟩) :=
  add_one_month_spec.2.2.2.2 ⟨2008, 1, 31⟩ (by decide)

/-!
Claims about the event roll and effects reporting.
-/

/-- C2 (counterexample): September 2008 has a historical entry (Lehman), yet
with a first draw of 0.5 the function returns no event at all — the 0.3
trigger roll is taken before the historical calendar is consulted. -/
theorem historical_not_deterministic_counterexample :
    get_historical_event ⟨2008, 9, 20⟩ =
      some { title := "Lehman Brothers Bankruptcy",
             investment_change := ⟨true, -1/4⟩, stress_change := 30 } ∧
    get_random_event ⟨2008, 9, 20⟩ Hudson (1/2) 0 0 0 = none := by
  refine ⟨rfl, ?_⟩
  norm_num [get_random_event]

/-- C2 (amended): `get_random_event` rolls the 0.3 trigger probability
first and returns no event when the draw exceeds 0.3, even in a month with
a historical entry; only when the roll succeeds is the historical calendar
consulted, and then the historical event takes precedence over the random
pool. -/
theorem get_random_event_trigger_first (d : Date) (c : Character) (r1 r2 : ℚ) (i j : ℕ) :
    (r1 > 3/10 → get_random_event d c r1 r2 i j = none) ∧
    (r1 ≤ 3/10 → ∀ e, get_historical_event d = some e →
      get_random_event d c r1 r2 i j = some (GEvent.fin e)) := by
  constructor
  · intro h
    simp [get_random_event, h]
  · intro h e he
    simp [get_random_event, not_lt.mpr h, he]

/-- C2 (witness): in September 2008 with a successful trigger roll (0.2),
the Lehman historical event is returned. -/
theorem get_random_event_trigger_first_witness :
    get_random_event ⟨2008, 9, 20⟩ Hudson (1/5) 0 0 0 =
      some (GEvent.fin { title := "Lehman Brothers Bankruptcy",
                         investment_change := ⟨true, -1/4⟩, stress_change := 30 }) :=
  (get_random_event_trigger_first ⟨2008, 9, 20⟩ Hudson (1/5) 0 0 0).2
    (by norm_num) _ rfl

/-- C7 (counterexample): `FinancialEvent.apply` always reports
`credit_score`, even when its delta is zero (Car Repair), and
`LifeEvent.apply` always reports `stress`, even when its delta is zero
(Networking Event) — so zero-valued deltas outside the four financial
fields are not always omitted. -/
theorem effects_zero_reported_counterexample :
    carRepair.credit_score_change = 0 ∧
    ("credit_score", (0 : ℚ)) ∈ (carRepair.apply Hudson).2 ∧
    networkingEvent.stress_change = 0 ∧
    ("stress", (0 : ℚ)) ∈ (networkingEvent.apply Hudson).2 := by
  refine ⟨rfl, ?_, rfl, ?_⟩
  · simp [carRepair, FinancialEvent.apply]
  · simp [networkingEvent, LifeEvent.apply]

/-- C7 (amended): `FinancialEvent.apply` always reports the four financial
fields AND `credit_score` (even when zero) and omits zero-valued stress,
health and reputation; `LifeEvent.apply` always reports stress, health,
reputation and the four financial fields (even when zero) and omits only a
zero-valued `credit_score`. -/
theorem effects_keys_spec (c : Character) (e : FinancialEvent) (l : LifeEvent) :
    (e.apply c).2.map Prod.fst =
      ["savings", "debt", "income", "investments", "credit_score"]
        ++ (if e.stress_change ≠ 0 then ["stress"] else [])
        ++ (if e.health_change ≠ 0 then ["health"] else [])
        ++ (if e.reputation_change ≠ 0 then ["reputation"] else []) ∧
    (l.apply c).2.map Prod.fst =
      ["stress", "health", "reputation", "savings", "debt", "income", "investments"]
        ++ (if l.credit_score_change ≠ 0 then ["credit_score"] else []) := by
  constructor
  · simp only [FinancialEvent.apply]
    split_ifs <;> simp
  · simp only [LifeEvent.apply]
    split_ifs <;> simp

/-!
Claims about the turn state machine.
-/

/-- C5: `advance_turn` flushes pending debt into debt and resets it, then
(if investments are positive) applies the injected market return, then (if
the resulting debt — which already includes the flushed pending debt — is
positive) adds 1.5% interest, then advances the calendar one month and
increments the turn counter. -/
theorem advance_turn_spec (g : GameState) (r : ℚ)
    (hp : 0 ≤ g.character.pending_debt) :
    (advance_turn g r).character.pending_debt = 0 ∧
    (advance_turn g r).character.investments =
      (if g.character.investments > 0 then
        (calculate_investment_return g.character.investments g.character.risk_rating r).1
       else g.character.investments) ∧
    (advance_turn g r).character.debt =
      (if g.character.debt + g.character.pending_debt > 0 then
        (g.character.debt + g.character.pending_debt)
          + (g.character.debt + g.character.pending_debt) * (15/1000)
       else g.character.debt + g.character.pending_debt) ∧
    (advance_turn g r).current_date = add_one_month g.current_date ∧
    (advance_turn g r).turn = g.turn + 1 ∧
    (advance_turn g r).character.savings = g.character.savings := by
  by_cases hpd : g.character.pending_debt > 0
  · simp [advance_turn, hpd]
    split_ifs <;> simp
  · have hpe : g.character.pending_debt = 0 := le_antisymm (not_lt.mp hpd) hp
    simp [advance_turn, hpe]
    split_ifs <;> simp [hpe]

/-- C5 (witness): the turn-increment clause at a concrete fresh game. -/
theorem advance_turn_spec_witness :
    (advance_turn (Game.init Jane) 0).turn = (Game.init Jane).turn + 1 :=
  (advance_turn_spec (Game.init Jane) 0 (by decide)).2.2.2.2.1

/-- C8: when health is ≤ 0 after the action phase, the loop tail of
`Game.start` ends the game with the health loss reason and skips
`advance_turn` entirely: character, turn and date are untouched. -/
theorem health_loss_skips_settlement (g : GameState) (r : ℚ)
    (h : g.character.health ≤ 0) :
    check_and_advance g r = end_game g .lostHealth ∧
    (check_and_advance g r).game_over = true ∧
    (check_and_advance g r).end_reason = some .lostHealth ∧
    (check_and_advance g r).character = g.character ∧
    (check_and_advance g r).turn = g.turn ∧
    (check_and_advance g r).current_date = g.current_date := by
  have h1 : check_and_advance g r = end_game g .lostHealth := by
    simp [check_and_advance, end_game, h]
  rw [h1]
  simp [end_game]

/-- C8 (witness): a concrete state with health 0 after the action phase. -/
theorem health_loss_skips_settlement_witness :
    (check_and_advance { Game.init Hudson with
      character := { Hudson with health := 0 } } 0).game_over = true ∧
    (check_and_advance { Game.init Hudson with
      character := { Hudson with health := 0 } } 0).end_reason =
      some EndReason.lostHealth :=
  ⟨(health_loss_skips_settlement _ 0 (by decide)).2.1,
   (health_loss_skips_settlement _ 0 (by decide)).2.2.1⟩

/-- C6 (code evaluated at the failing input): volunteering with the Hudson
preset reduces expenses by 10% and the risk rating by 0.5 and sets the
bonus to 0.1; but the bonus is still 0.1 after the following turn's
probability phase, after the end-of-turn settlement, and during the
second-following turn's probability phase — it is never consumed. -/
theorem volunteer_bonus_never_reset :
    (action_volunteer (Game.init Hudson)).monthly_expenses =
      (Game.init Hudson).monthly_expenses * (9/10) ∧
    (action_volunteer (Game.init Hudson)).character.risk_rating = 5 ∧
    (action_volunteer (Game.init Hudson)).character.volunteer_bonus = 1/10 ∧
    ((play_turn_surge (action_volunteer (Game.init Hudson)) (1/2)).1).character.volunteer_bonus
      = 1/10 ∧
    (advance_turn ((play_turn_surge (action_volunteer (Game.init Hudson)) (1/2)).1)
        0).character.volunteer_bonus = 1/10 ∧
    ((play_turn_surge
        (advance_turn ((play_turn_surge (action_volunteer (Game.init Hudson)) (1/2)).1) 0)
        (1/2)).1).character.volunteer_bonus = 1/10 := by
  norm_num [action_volunteer, Game.init, Hudson, Character.init, play_turn_surge,
    process_expenses, advance_turn, event_chance]

/-!
The global bounds claim.
-/

/-- C1 (counterexample): three bounds-satisfying states the claim fails on:
applying the Car Repair event at savings 0 drives savings to −500; `work`
at stress 100 and health 10 drives health below 0; `invest` with a negative
amount drives investments below 0. -/
theorem bounds_invariant_counterexample :
    (inBounds { Hudson with savings := 0 } ∧
      (carRepair.apply { Hudson with savings := 0 }).1.savings = -500 ∧
      ¬ 0 ≤ (carRepair.apply { Hudson with savings := 0 }).1.savings) ∧
    (inBounds { Hudson with stress := 100, health := 10 } ∧
      (({ Hudson with stress := 100, health := 10 } : Character).work).1.health = -15 ∧
      ¬ 0 ≤ (({ Hudson with stress := 100, health := 10 } : Character).work).1.health) ∧
    (inBounds Hudson ∧
      (Hudson.invest (-100)).1.investments = -100 ∧
      ¬ 0 ≤ (Hudson.invest (-100)).1.investments) := by
  norm_num [inBounds, moneyNonneg, scoresInRange, Hudson, Character.init,
    carRepair, FinancialEvent.apply, resolveDelta,
    Character.work, Character.get_monthly_income, Character.invest]

/-- C1 (amended): from any state satisfying the bounds (with non-negative
income), `relax`, `pay_debt` and `invest` (the latter two with non-negative
amounts) preserve all bounds; `work` preserves the monetary non-negativity
and every clamp except the lower bound on health, which may go negative
when stress saturates; and event application (both variants) keeps stress,
health, reputation and credit score within their clamp ranges but may leave
savings, debt or investments negative. -/
theorem bounds_after_operations (c : Character) (h : inBounds c) :
    inBounds (c.relax).1 ∧
    (∀ a : ℚ, 0 ≤ a → inBounds (c.pay_debt a).1) ∧
    (∀ a : ℚ, 0 ≤ a → inBounds (c.invest a).1) ∧
    (moneyNonneg (c.work).1 ∧
      0 ≤ (c.work).1.stress ∧ (c.work).1.stress ≤ 100 ∧
      (c.work).1.health ≤ 100 ∧
      0 ≤ (c.work).1.reputation ∧ (c.work).1.reputation ≤ 100 ∧
      300 ≤ (c.work).1.credit_score ∧ (c.work).1.credit_score ≤ 850) ∧
    (∀ e : FinancialEvent, scoresInRange (e.apply c).1) ∧
    (∀ l : LifeEvent, scoresInRange (l.apply c).1) := by
  obtain ⟨⟨hs, hd, hv⟩, ⟨h1, h2, h3, h4, h5, h6, h7, h8⟩, hinc⟩ := h
  have hinc12 : 0 ≤ c.income / 12 := by positivity
  refine ⟨?_, ?_, ?_, ?_, ?_, ?_⟩
  · -- relax
    have hmr : min 25 c.stress ≤ c.stress := min_le_right _ _
    have hm0 : 0 ≤ min 25 c.stress := le_min (by norm_num) h1
    simp only [Character.relax, inBounds, moneyNonneg, scoresInRange]
    split_ifs <;>
      refine ⟨⟨hs, hd, hv⟩, ⟨by linarith, by linarith, by linarith, by linarith,
        h5, h6, h7, h8⟩, hinc⟩
  · -- pay_debt
    intro a ha
    have hmin1 : min a c.debt ≤ c.debt := min_le_right _ _
    have hmin0 : 0 ≤ min a c.debt := le_min ha hd
    simp only [Character.pay_debt, inBounds, moneyNonneg, scoresInRange]
    split_ifs with hgt h850 h850 <;>
      refine ⟨⟨by linarith, by linarith, hv⟩,
        ⟨h1, h2, h3, h4, h5, h6, by linarith, by linarith⟩, hinc⟩
  · -- invest
    intro a ha
    simp only [Character.invest, inBounds, moneyNonneg, scoresInRange]
    split_ifs with hgt
    · exact ⟨⟨by linarith, hd, by linarith⟩,
        ⟨h1, h2, h3, h4, h5, h6, h7, h8⟩, hinc⟩
    · exact ⟨⟨by linarith, hd, by linarith⟩,
        ⟨h1, h2, h3, h4, h5, h6, h7, h8⟩, hinc⟩
  · -- work
    simp only [Character.work, Character.get_monthly_income, moneyNonneg]
    split_ifs with hsat <;>
      refine ⟨⟨by linarith, hd, hv⟩, by linarith, by linarith, by linarith,
        h5, h6, h7, h8⟩
  · -- financial events
    intro e
    have hcs := clamp300to850_bounds (c.credit_score + e.credit_score_change)
    have hst := clamp0to100_bounds (c.stress + e.stress_change)
    have hhe := clamp0to100_bounds (c.health + e.health_change)
    have hre := clamp0to100_bounds (c.reputation + e.reputation_change)
    simp only [FinancialEvent.apply, scoresInRange]
    split_ifs <;>
      exact ⟨by first | exact hst.1 | exact h1, by first | exact hst.2 | exact h2,
        by first | exact hhe.1 | exact h3, by first | exact hhe.2 | exact h4,
        by first | exact hre.1 | exact h5, by first | exact hre.2 | exact h6,
        hcs.1, hcs.2⟩
  · -- life events
    intro l
    have hcs := clamp300to850_bounds (c.credit_score + l.credit_score_change)
    have hst := clamp0to100_bounds (c.stress + l.stress_change)
    have hhe := clamp0to100_bounds (c.health + l.health_change)
    have hre := clamp0to100_bounds (c.reputation + l.reputation_change)
    simp only [LifeEvent.apply, scoresInRange]
    split_ifs <;>
      exact ⟨hst.1, hst.2, hhe.1, hhe.2, hre.1, hre.2,
        by first | exact hcs.1 | exact h7, by first | exact hcs.2 | exact h8⟩

/-- C1 (witness): the relax clause at the Hudson preset. -/
theorem bounds_after_operations_witness :
    inBounds (Hudson.relax).1 :=
  (bounds_after_operations Hudson (by decide)).1

end CreditTrail
